import Mathlib

/-
Verification of the Resilient External Acquisition Layer of the
Price-Compare backend.  The Python source under src/backend/app is
shallowly embedded here: proxy rotation state (proxy_manager.py),
per-domain cookie persistence (utils/cookie_manager.py), the
sliding-window rate limiter (core/rate_limiter.py), the eBay token
lifecycle manager (core/ebay_token.py) and the scraping retry and
extraction pipeline (scraper_engine.py).  External effects (redis, the
network, the browser) are modelled by explicit state passing and by
oracle parameters; the control flow of each Python function, including
its try/except structure, is reproduced faithfully.
-/

namespace PriceCompare

/-! ## ProxyManager (src/backend/app/proxy_manager.py)

A ProxyInfo record carries a consecutive-failure counter, a success
counter, an exponentially averaged response time, and an enabled flag.
mark_failed and mark_success mutate one record; get_proxy rotates over
the pool, skipping disabled records. -/

structure ProxyInfo where
  failures : Nat
  success_count : Nat
  avg_response_time : Rat
  enabled : Bool
  deriving Repr, DecidableEq

/-- A fresh record, as built by _initialize_proxies: failures = 0,
success_count = 0, avg_response_time = 0.0, enabled = True. -/
def ProxyInfo.fresh : ProxyInfo := ⟨0, 0, 0, true⟩

/-- ProxyManager.mark_failed, restricted to the matching record:
increments the failure counter and disables the proxy once
failures >= 3. -/
def markFailed (p : ProxyInfo) : ProxyInfo :=
  let p1 : ProxyInfo := { p with failures := p.failures + 1 }
  if p1.failures ≥ 3 then { p1 with enabled := false } else p1

/-- ProxyManager.mark_success, restricted to the matching record:
increments the success counter, folds the response time into the
average, resets the failure counter (guarded by failures > 0 as in the
source) and re-enables the proxy if it was disabled. -/
def markSuccess (p : ProxyInfo) (response_time : Rat) : ProxyInfo :=
  let p1 : ProxyInfo :=
    { p with
      success_count := p.success_count + 1,
      avg_response_time :=
        if p.avg_response_time = 0 then response_time
        else (p.avg_response_time + response_time) / 2 }
  let p2 : ProxyInfo := if p1.failures > 0 then { p1 with failures := 0 } else p1
  if p2.enabled = false then { p2 with enabled := true } else p2

/-- One callback delivered to a proxy record. -/
inductive ProxyEvent where
  | failed : ProxyEvent
  | succeeded : Rat → ProxyEvent
  deriving Repr, DecidableEq

def applyProxyEvent (p : ProxyInfo) : ProxyEvent → ProxyInfo
  | .failed => markFailed p
  | .succeeded rt => markSuccess p rt

/-- Replay a sequence of mark_failed / mark_success callbacks against a
fresh record. -/
def replayProxy (evs : List ProxyEvent) : ProxyInfo :=
  evs.foldl applyProxyEvent ProxyInfo.fresh

/-- How one callback transforms the consecutive-failure count. -/
def stepFailures (n : Nat) : ProxyEvent → Nat
  | .failed => n + 1
  | .succeeded _ => 0

/-- The number of consecutive failures at the end of the sequence
(failures since the last success, or since the start). -/
def trailingFailures (evs : List ProxyEvent) : Nat :=
  evs.foldl stepFailures 0

/-- Whether the record at index i of the pool exists and is enabled. -/
def enabledAt (ps : List ProxyInfo) (i : Nat) : Bool :=
  ((ps.get? i).map ProxyInfo.enabled).getD false

/-- The for-loop of get_proxy: advance the rotation index up to steps
times, returning the first enabled index found. The for-else of the
source returns None when the loop completes without a break. -/
def rotateSearch (ps : List ProxyInfo) : Nat → Nat → Option Nat
  | _, 0 => none
  | i, steps + 1 =>
    let j := (i + 1) % ps.length
    if enabledAt ps j then some j else rotateSearch ps j steps

/-- ProxyManager.get_proxy: rotate to the next index; if that record is
disabled, scan at most (pool size) further indexes for an enabled one.
Returns the chosen index, or none when the pool is empty or fully
disabled. -/
def getProxy (ps : List ProxyInfo) (cur : Nat) : Option Nat :=
  if ps.isEmpty then none
  else
    let i1 := (cur + 1) % ps.length
    if enabledAt ps i1 then some i1
    else rotateSearch ps i1 ps.length

/-! ## CookieManager (src/backend/app/utils/cookie_manager.py)

The cookie file data/cookies/cookies.json is a single JSON object
mapping a domain to its cookie list.  The file content is modelled as
the parsed object (an association list); a missing file is none. -/

/-- One cookie as a JSON object (key/value pairs). -/
abbrev Cookie := List (String × String)

/-- The parsed content of cookies.json; none when the file is absent. -/
abbrev CookieFile := Option (List (String × List Cookie))

/-- Python dict assignment d[k] = v on an association list: replace the
first binding of k, else append. -/
def setKey (m : List (String × α)) (k : String) (v : α) : List (String × α) :=
  match m with
  | [] => [(k, v)]
  | (k0, v0) :: rest => if k0 = k then (k, v) :: rest else (k0, v0) :: setKey rest k v

/-- Python dict lookup d.get(k). -/
def getKey (m : List (String × α)) (k : String) : Option α :=
  match m with
  | [] => none
  | (k0, v0) :: rest => if k0 = k then some v0 else getKey rest k

/-- CookieManager.save_cookies (success path): read the existing file
(or start from an empty dict), set all_cookies[domain] = cookies, and
write the object back. -/
def save_cookies (fs : CookieFile) (domain : String) (cookies : List Cookie) : CookieFile :=
  let all := match fs with | none => [] | some m => m
  some (setKey all domain cookies)

/-- CookieManager.load_cookies: an absent file yields [], otherwise
data.get(domain, []). -/
def load_cookies (fs : CookieFile) (domain : String) : List Cookie :=
  match fs with
  | none => []
  | some m => (getKey m domain).getD []

/-- Whether the cookie file currently holds any binding for the domain. -/
def hasDomain (fs : CookieFile) (d : String) : Bool :=
  match fs with
  | none => false
  | some m => (getKey m d).isSome

/-! ## RateLimiter (src/backend/app/core/rate_limiter.py)

RateLimiter.limit keeps, per rate-limit key, a redis sorted set whose
member is str(current_time) with score current_time; the member set is
therefore exactly the set of distinct integer second timestamps.  The
call pipeline is zadd(now), expire, zcount(window_start, now); when the
count exceeds the class limit and block is False the code raises an
HTTP 429.  That raise sits inside the same try whose blanket
`except Exception` returns a full-quota fail-open result, so the 429 is
swallowed by the limiter itself.  Store faults are an oracle flag. -/

/-- The member set of the per-key sorted set: distinct timestamps. -/
abbrev RateWindow := List Int

/-- redis zadd with member str(t), score t: an existing member only has
its (identical) score overwritten. -/
def zadd (w : RateWindow) (t : Int) : RateWindow :=
  if t ∈ w then w else w ++ [t]

/-- redis zcount over the closed score range [lo, hi]. -/
def zcount (w : RateWindow) (lo hi : Int) : Nat :=
  (w.filter fun t => decide (lo ≤ t) && decide (t ≤ hi)).length

/-- self.default_limits.get(limit_type, self.default_limits[public]). -/
def defaultLimits (limitType : String) : Nat :=
  if limitType = "public" then 60
  else if limitType = "authenticated" then 300
  else if limitType = "ebay_api" then 100
  else 60

/-- The dictionary returned by RateLimiter.limit. -/
structure RateLimitInfo where
  limit : Nat
  remaining : Nat
  reset : Int
  retry_after : Int
  deriving Repr, DecidableEq

/-- What the body of the try block can raise: the HTTP 429 throttling
error (carrying the Retry-After duration) or a redis failure. -/
inductive RateLimitErr where
  | throttled (limit : Nat) (remaining : Nat) (reset : Int) (retryAfter : Int)
  | storeError
  deriving Repr, DecidableEq

/-- The fail-open dictionary built in the degraded-mode branch and in
the except branch: full remaining quota, retry_after 0. -/
def failOpenInfo (lim : Nat) (currentTime period : Int) : RateLimitInfo :=
  { limit := lim, remaining := lim, reset := currentTime + period, retry_after := 0 }

/-- The try block of RateLimiter.limit with block=False: record the
request, count the window, and either return the rate-limit dictionary
or raise the 429 throttling error. Returns the updated window next to
the outcome. -/
def limitBody (w : RateWindow) (currentTime : Int) (lim : Nat) (period : Int) :
    RateWindow × Except RateLimitErr RateLimitInfo :=
  let w1 := zadd w currentTime
  let requestCount := zcount w1 (currentTime - period) currentTime
  let remaining := lim - requestCount
  let resetTime := currentTime + period
  let retryAfter := max 0 (resetTime - currentTime)
  if requestCount > lim then
    (w1, .error (.throttled lim remaining resetTime retryAfter))
  else
    (w1, .ok { limit := lim, remaining := remaining, reset := resetTime, retry_after := 0 })

/-- RateLimiter.limit with block=False.  redisAvailable mirrors
self.redis_available; opFails makes the redis pipeline raise.  A raised
RateLimitErr — the storeError, but also the 429 raised by the body — is
caught by the `except Exception` clause, which returns the fail-open
dictionary. -/
def RateLimiter.limit (redisAvailable opFails : Bool) (w : RateWindow)
    (currentTime : Int) (limitType : String) : RateLimitInfo × RateWindow :=
  let lim := defaultLimits limitType
  let period : Int := 60
  if redisAvailable = false then
    (failOpenInfo lim currentTime period, w)
  else
    match (if opFails then (w, Except.error RateLimitErr.storeError)
           else limitBody w currentTime lim period) with
    | (w1, .ok info) => (info, w1)
    | (w1, .error _) => (failOpenInfo lim currentTime period, w1)

/-! ### Lemmas and theorems for the proxy pool -/

lemma markSuccess_failures_enabled (p : ProxyInfo) (rt : Rat) :
    (markSuccess p rt).failures = 0 ∧ (markSuccess p rt).enabled = true := by
  unfold markSuccess
  rcases hfail : p.failures with _ | n <;> rcases hen : p.enabled <;> simp [hfail, hen]

lemma markFailed_failures (p : ProxyInfo) : (markFailed p).failures = p.failures + 1 := by
  unfold markFailed
  dsimp only
  split <;> rfl

lemma markFailed_enabled (p : ProxyInfo) :
    (markFailed p).enabled = (p.enabled && decide (p.failures + 1 < 3)) := by
  unfold markFailed
  dsimp only
  split
  · next h3 => simp [show ¬ p.failures + 1 < 3 by omega]
  · next h3 => simp [show p.failures + 1 < 3 by omega]

lemma applyProxyEvent_inv (p : ProxyInfo) (e : ProxyEvent)
    (h : p.enabled = decide (p.failures < 3)) :
    (applyProxyEvent p e).failures = stepFailures p.failures e ∧
    (applyProxyEvent p e).enabled = decide ((applyProxyEvent p e).failures < 3) := by
  cases e with
  | failed =>
    refine ⟨markFailed_failures p, ?_⟩
    show (markFailed p).enabled = decide ((markFailed p).failures < 3)
    rw [markFailed_enabled, markFailed_failures, h]
    by_cases h1 : p.failures + 1 < 3
    · simp [h1, show p.failures < 3 by omega]
    · simp [h1]
  | succeeded rt =>
    have hs := markSuccess_failures_enabled p rt
    refine ⟨hs.1, ?_⟩
    show (markSuccess p rt).enabled = decide ((markSuccess p rt).failures < 3)
    rw [hs.1, hs.2]
    simp

lemma foldl_applyProxyEvent (evs : List ProxyEvent) :
    ∀ p : ProxyInfo, p.enabled = decide (p.failures < 3) →
      (evs.foldl applyProxyEvent p).failures = evs.foldl stepFailures p.failures ∧
      (evs.foldl applyProxyEvent p).enabled =
        decide ((evs.foldl applyProxyEvent p).failures < 3) := by
  induction evs with
  | nil => intro p h; exact ⟨rfl, h⟩
  | cons e rest ih =>
    intro p h
    have h1 := applyProxyEvent_inv p e h
    simp only [List.foldl_cons]
    have h2 := ih (applyProxyEvent p e) h1.2
    rw [h1.1] at h2
    exact h2

lemma rotateSearch_enabled (ps : List ProxyInfo) :
    ∀ (steps i j : Nat), rotateSearch ps i steps = some j → enabledAt ps j = true := by
  intro steps
  induction steps with
  | zero => intro i j h; simp [rotateSearch] at h
  | succ n ih =>
    intro i j h
    unfold rotateSearch at h
    by_cases he : enabledAt ps ((i + 1) % ps.length) = true
    · simp [he] at h
      subst h
      exact he
    · simp [he] at h
      exact ih _ _ h

/-- C4: replaying any sequence of mark_failed / mark_success callbacks
from a fresh record, the failure counter always equals the count of
trailing consecutive failures, and the record is enabled exactly while
that count is below 3 — so it becomes disabled precisely at the third
consecutive failure; a single mark_success resets the counter to zero
and re-enables the record; and get_proxy only ever returns enabled
records, so a disabled proxy is excluded from rotation. -/
theorem proxy_failure_threshold :
    (∀ evs : List ProxyEvent,
        (replayProxy evs).failures = trailingFailures evs ∧
        ((replayProxy evs).enabled = true ↔ trailingFailures evs < 3)) ∧
    (∀ (p : ProxyInfo) (rt : Rat),
        (markSuccess p rt).failures = 0 ∧ (markSuccess p rt).enabled = true) ∧
    (∀ (ps : List ProxyInfo) (cur i : Nat),
        getProxy ps cur = some i → enabledAt ps i = true) := by
  refine ⟨?_, markSuccess_failures_enabled, ?_⟩
  · intro evs
    have h := foldl_applyProxyEvent evs ProxyInfo.fresh rfl
    have hf : (replayProxy evs).failures = trailingFailures evs := h.1
    have he : (replayProxy evs).enabled = decide ((replayProxy evs).failures < 3) := h.2
    refine ⟨hf, ?_⟩
    rw [he, hf]
    simp
  · intro ps cur i h
    unfold getProxy at h
    by_cases hemp : ps.isEmpty
    · simp [hemp] at h
    · by_cases he : enabledAt ps ((cur + 1) % ps.length) = true
      · simp [hemp, he] at h
        subst h
        exact he
      · simp [hemp, he] at h
        exact rotateSearch_enabled ps _ _ _ h

/-- Witness for C4 at concrete inputs: one failure on a fresh record,
and a one-record pool whose rotation yields index 0. -/
theorem proxy_failure_threshold_witness :
    (replayProxy [ProxyEvent.failed]).failures = trailingFailures [ProxyEvent.failed] ∧
    enabledAt [ProxyInfo.fresh] 0 = true :=
  ⟨(proxy_failure_threshold.1 [ProxyEvent.failed]).1,
   proxy_failure_threshold.2.2 [ProxyInfo.fresh] 5 0 rfl⟩

/-! ### Lemmas and theorems for the cookie store -/

lemma getKey_setKey_same (m : List (String × α)) (k : String) (v : α) :
    getKey (setKey m k v) k = some v := by
  induction m with
  | nil => simp [setKey, getKey]
  | cons kv rest ih =>
    obtain ⟨k0, v0⟩ := kv
    by_cases hk : k0 = k
    · simp [setKey, getKey, hk]
    · simp [setKey, getKey, hk, ih]

lemma getKey_setKey_other (m : List (String × α)) (k k2 : String) (v : α)
    (h : k2 ≠ k) : getKey (setKey m k v) k2 = getKey m k2 := by
  induction m with
  | nil => simp [setKey, getKey, Ne.symm h]
  | cons kv rest ih =>
    obtain ⟨k0, v0⟩ := kv
    by_cases hk : k0 = k
    · subst hk
      simp [setKey, getKey, Ne.symm h]
    · simp [setKey, getKey, hk, ih]

/-- C8: after save_cookies(d, c) succeeds, load_cookies(d) returns the
saved cookie set unmodified, and load_cookies(d2) for any other domain
that was never saved returns the empty cookie set. -/
theorem cookie_roundtrip :
    ∀ (fs : CookieFile) (d : String) (c : List Cookie),
      load_cookies (save_cookies fs d c) d = c ∧
      ∀ d2 : String, d2 ≠ d → hasDomain fs d2 = false →
        load_cookies (save_cookies fs d c) d2 = [] := by
  intro fs d c
  constructor
  · cases fs <;> simp [save_cookies, load_cookies, getKey_setKey_same]
  · intro d2 hne habs
    cases fs with
    | none =>
      simp [save_cookies, load_cookies, setKey, getKey, Ne.symm hne]
    | some m =>
      cases hg : getKey m d2 with
      | some v =>
        rw [hasDomain, hg] at habs
        simp at habs
      | none =>
        simp [save_cookies, load_cookies, getKey_setKey_other _ _ _ _ hne, hg]

/-- Witness for C8: saving cookies for ebay.com into an absent file,
then loading them back, and loading a never-saved domain. -/
theorem cookie_roundtrip_witness :
    load_cookies (save_cookies none "ebay.com" [[("sid", "1")]]) "ebay.com" =
      [[("sid", "1")]] ∧
    load_cookies (save_cookies none "ebay.com" [[("sid", "1")]]) "amazon.com" = [] :=
  ⟨(cookie_roundtrip none "ebay.com" [[("sid", "1")]]).1,
   (cookie_roundtrip none "ebay.com" [[("sid", "1")]]).2 "amazon.com" (by decide) rfl⟩

/-! ### Theorems for the rate limiter -/

/-- C1: with 60 requests (seconds 0..59) already recorded for one
identity under the public limit of 60 per 60 seconds, the 61st call at
second 60 does build the HTTP 429 throttling error with a positive
Retry-After of 60 inside the try block — but the blanket
`except Exception` of RateLimiter.limit catches that very exception and
returns the full-quota fail-open dictionary instead, so the call never
raises; the first request after the window has elapsed is served
normally.  This contradicts the claim (and the docstring of the
function, which documents that HTTPException is raised when the limit
is exceeded and block is False). -/
theorem rate_limiter_throttle_swallowed :
    (limitBody ((List.range 60).map Int.ofNat) 60 60 60).2 =
      .error (.throttled 60 0 120 60) ∧
    (RateLimiter.limit true false ((List.range 60).map Int.ofNat) 60 "public").1 =
      failOpenInfo 60 60 60 ∧
    (RateLimiter.limit true false (zadd ((List.range 60).map Int.ofNat) 60) 121 "public").1 =
      { limit := 60, remaining := 59, reset := 181, retry_after := 0 } := by
  refine ⟨rfl, by decide, by decide⟩

/-- C9: whenever the coordination store is unreachable — unavailable at
construction (redisAvailable = false) or raising during the call
(opFails = true) — RateLimiter.limit returns the fail-open dictionary
with full remaining quota and leaves the window untouched, for every
identity window, every instant and every identity class. -/
theorem rate_limiter_fail_open (redisAvailable opFails : Bool) (w : RateWindow)
    (t : Int) (limitType : String)
    (h : redisAvailable = false ∨ opFails = true) :
    RateLimiter.limit redisAvailable opFails w t limitType =
      (failOpenInfo (defaultLimits limitType) t 60, w) ∧
    (failOpenInfo (defaultLimits limitType) t 60).remaining = defaultLimits limitType := by
  refine ⟨?_, rfl⟩
  rcases h with h | h
  · subst h
    simp [RateLimiter.limit]
  · subst h
    cases redisAvailable <;> simp [RateLimiter.limit]

/-- Witness for C9: a store outage at construction time, with one
recorded timestamp. -/
theorem rate_limiter_fail_open_witness :
    RateLimiter.limit false false [(3 : Int)] 7 "public" =
      (failOpenInfo (defaultLimits "public") 7 60, [(3 : Int)]) ∧
    (failOpenInfo (defaultLimits "public") 7 60).remaining = defaultLimits "public" :=
  rate_limiter_fail_open false false [(3 : Int)] 7 "public" (Or.inl rfl)

/-! ## EBayTokenManager (src/backend/app/core/ebay_token.py)

The redis keys used by the manager are modelled as one record; the
manager instance state is its redis_available and _lock_acquired
attributes.  Which redis operation raises is given by a fault record;
the token endpoint response is an oracle value.  Timestamps and float
values stored as strings are modelled as rationals.

A central feature reproduced here: in _refresh_token the mint-limit
HTTPException is raised inside a try whose `except Exception` clause
logs and continues, so an exhausted daily mint quota never stops the
refresh; and the finally clause only releases the cluster lock when
redis_available is still true at exit. -/

/-- The redis keys of the token manager. -/
structure TokenStore where
  token : Option String
  tokenExpiry : Option Rat
  tokenType : Option String
  mintCount : Nat
  mintReset : Option Rat
  lockHeld : Bool
  deriving Repr, DecidableEq

/-- The manager instance attributes that the methods mutate. -/
structure MgrState where
  redisAvailable : Bool
  lockAcquired : Bool
  deriving Repr, DecidableEq

/-- Which redis call raises during the run. -/
structure StoreFaults where
  cacheRead : Bool
  mintResetRead : Bool
  mintResetWrite : Bool
  mintCountRead : Bool
  acquireSet : Bool
  mintIncr : Bool
  tokenWrite : Bool
  releaseDelete : Bool
  deriving Repr, DecidableEq

/-- A fault record for a healthy store: no redis call raises. -/
def noFaults : StoreFaults := ⟨false, false, false, false, false, false, false, false⟩

/-- Outcome of the POST to the OAuth token endpoint. -/
inductive NetResult where
  | success (accessToken : String) (expiresIn : Rat) (tokenType : String)
  | missingToken
  | requestError
  deriving Repr, DecidableEq

/-- An HTTPException(status_code, detail). -/
structure HTTPError where
  statusCode : Nat
  detail : String
  deriving Repr, DecidableEq

/-- max_mints_per_day: conservative cap below the eBay hard limit. -/
def max_mints_per_day : Nat := 900

/-- EBayTokenManager._check_mint_limit: resets the rolling counter when
the tracked reset instant is absent or past, else compares the count to
the cap.  Every internal failure is caught, flips redis_available off
and reports the limit as not hit. -/
def checkMintLimit (m : MgrState) (st : TokenStore) (now : Rat) (f : StoreFaults)
    (maxMints : Nat) : Bool × MgrState × TokenStore :=
  if m.redisAvailable = false then (false, m, st)
  else if f.mintResetRead then (false, { m with redisAvailable := false }, st)
  else
    match st.mintReset with
    | none =>
      if f.mintResetWrite then (false, { m with redisAvailable := false }, st)
      else (false, m, { st with mintCount := 0, mintReset := some (now + 86400) })
    | some r =>
      if r < now then
        if f.mintResetWrite then (false, { m with redisAvailable := false }, st)
        else (false, m, { st with mintCount := 0, mintReset := some (now + 86400) })
      else
        if f.mintCountRead then (false, { m with redisAvailable := false }, st)
        else (decide (st.mintCount ≥ maxMints), m, st)

/-- EBayTokenManager._acquire_lock: SET ebay_token_lock NX with a 60s
TTL.  Returns True immediately when redis is unavailable or the lock
attribute is already set; an exception on the SET returns False without
touching _lock_acquired. -/
def acquireLock (m : MgrState) (st : TokenStore) (f : StoreFaults) :
    Bool × MgrState × TokenStore :=
  if m.redisAvailable = false ∨ m.lockAcquired then (true, m, st)
  else if f.acquireSet then (false, m, st)
  else if st.lockHeld then (false, { m with lockAcquired := false }, st)
  else (true, { m with lockAcquired := true }, { st with lockHeld := true })

/-- EBayTokenManager._release_lock: DELETE the lock key; a raise on the
DELETE is swallowed and leaves _lock_acquired (and the key) in place. -/
def releaseLock (m : MgrState) (st : TokenStore) (f : StoreFaults) :
    MgrState × TokenStore :=
  if m.redisAvailable = false ∨ m.lockAcquired = false then (m, st)
  else if f.releaseDelete then (m, st)
  else ({ m with lockAcquired := false }, { st with lockHeld := false })

/-- EBayTokenManager._increment_mint_count: INCR, with the raise caught
and redis_available flipped off. -/
def incrementMintCount (m : MgrState) (st : TokenStore) (f : StoreFaults) :
    MgrState × TokenStore :=
  if m.redisAvailable then
    if f.mintIncr then ({ m with redisAvailable := false }, st)
    else (m, { st with mintCount := st.mintCount + 1 })
  else (m, st)

/-- What one run of _refresh_token produces: the returned token or the
propagated HTTPException, the manager and store states at exit, and
whether the token-endpoint network call was performed. -/
structure RefreshOutcome where
  result : Except HTTPError String
  mgr : MgrState
  store : TokenStore
  networkCalled : Bool
  deriving Repr

/-- The try block of _refresh_token (credentials check, network call,
token storage), before the finally clause. -/
def refreshBody (m : MgrState) (st : TokenStore) (now : Rat) (credsPresent : Bool)
    (net : NetResult) (f : StoreFaults) : RefreshOutcome :=
  if credsPresent = false then
    ⟨.error ⟨500, "Server configuration error"⟩, m, st, false⟩
  else
    match net with
    | .requestError =>
      ⟨.error ⟨503, "Failed to refresh token. Please try again later."⟩, m, st, true⟩
    | .missingToken =>
      ⟨.error ⟨500, "An unexpected error occurred"⟩, m, st, true⟩
    | .success tok expiresIn ttype =>
      if m.redisAvailable then
        let ms := incrementMintCount m st f
        if f.tokenWrite then
          ⟨.ok tok, { ms.1 with redisAvailable := false }, ms.2, true⟩
        else
          ⟨.ok tok, ms.1,
            { ms.2 with
              token := some tok,
              tokenExpiry := some (now + expiresIn - 300),
              tokenType := some ttype }, true⟩
      else ⟨.ok tok, m, st, true⟩

/-- EBayTokenManager._refresh_token: the mint-limit gate (whose quota
HTTPException is caught by its own `except Exception` and therefore
never stops the run), the cluster-lock acquisition, the guarded body,
and the finally clause that releases the lock only while
redis_available is still true. -/
def refreshToken (m : MgrState) (st : TokenStore) (now : Rat) (credsPresent : Bool)
    (net : NetResult) (f : StoreFaults) (maxMints : Nat) : RefreshOutcome :=
  -- step 1: `if await self._check_mint_limit(): raise HTTPException(...)`
  -- wrapped in try/except Exception that logs and continues
  let gate :=
    if m.redisAvailable then checkMintLimit m st now f maxMints else (false, m, st)
  let m1 := gate.2.1
  let st1 := gate.2.2
  -- step 2: serialize the refresh cluster-wide
  let locked :=
    if m1.redisAvailable then acquireLock m1 st1 f else (true, m1, st1)
  if locked.1 = false then
    ⟨.error ⟨503, "Token refresh in progress. Please try again shortly."⟩,
      locked.2.1, locked.2.2, false⟩
  else
    let body := refreshBody locked.2.1 locked.2.2 now credsPresent net f
    -- finally: if self.redis_available: await self._release_lock()
    let rel :=
      if body.mgr.redisAvailable then releaseLock body.mgr body.store f
      else (body.mgr, body.store)
    ⟨body.result, rel.1, rel.2, body.networkCalled⟩

/-- Truthiness of the cached token value read from redis: an empty
string is falsy in Python and forces a refresh. -/
def tokenTruthy : Option String → Bool
  | none => false
  | some s => !s.isEmpty

/-- The cache-freshness test of get_access_token:
float(token_expiry) > time.time() + 60, with an absent expiry key
forcing a refresh. -/
def expiryFresh (e : Option Rat) (now : Rat) : Bool :=
  match e with
  | some exp => decide (exp > now + 60)
  | none => false

/-- EBayTokenManager.get_access_token: serve the cached token while its
expiry is more than 60s away, otherwise refresh; any exception raised
anywhere inside — including every HTTPException from _refresh_token —
is caught and replaced by the one generic 503. -/
def getAccessToken (m : MgrState) (st : TokenStore) (now : Rat) (credsPresent : Bool)
    (net : NetResult) (f : StoreFaults) (maxMints : Nat) : RefreshOutcome :=
  let inner : RefreshOutcome :=
    if m.redisAvailable ∧ f.cacheRead then
      ⟨.error ⟨500, "redis cache read raised"⟩, m, st, false⟩
    else if m.redisAvailable && tokenTruthy st.token && expiryFresh st.tokenExpiry now then
      ⟨.ok (st.token.getD ""), m, st, false⟩
    else refreshToken m st now credsPresent net f maxMints
  match inner.result with
  | .ok tok => ⟨.ok tok, inner.mgr, inner.store, inner.networkCalled⟩
  | .error _ =>
    ⟨.error ⟨503, "Failed to get access token"⟩, inner.mgr, inner.store,
      inner.networkCalled⟩

/-! ### Theorems for the token manager -/

/-- Store state with the daily mint quota exhausted: the rolling-window
reset instant lies in the future and the counter already equals
max_mints_per_day. -/
def quotaExhaustedStore : TokenStore :=
  { token := none, tokenExpiry := none, tokenType := none,
    mintCount := 900, mintReset := some 100000, lockHeld := false }

/-- C2: with the daily mint counter at the cap (900 = max_mints_per_day)
and the rolling window not yet reset, _check_mint_limit does report the
quota as exhausted — but the HTTPException that _refresh_token raises on
that report is caught by the `except Exception` around the very check,
so the (N+1)-th refresh attempt via get_token proceeds: it performs the
token-endpoint network call, returns a fresh token, and pushes the mint
counter to 901, above the cap.  The claim describes the intended
behaviour (also spelled out by the error message and log line in the
code); the code never refuses the refresh. -/
theorem mint_cap_not_enforced :
    (checkMintLimit ⟨true, false⟩ quotaExhaustedStore 50000 noFaults
        max_mints_per_day).1 = true ∧
    (getAccessToken ⟨true, false⟩ quotaExhaustedStore 50000 true
        (.success "tok123" 7200 "Bearer") noFaults max_mints_per_day).result =
      .ok "tok123" ∧
    (getAccessToken ⟨true, false⟩ quotaExhaustedStore 50000 true
        (.success "tok123" 7200 "Bearer") noFaults max_mints_per_day).networkCalled =
      true ∧
    (getAccessToken ⟨true, false⟩ quotaExhaustedStore 50000 true
        (.success "tok123" 7200 "Bearer") noFaults max_mints_per_day).store.mintCount =
      901 := by
  refine ⟨by decide, rfl, by decide, by decide⟩

/-- Fault record where storing the refreshed token in redis raises. -/
def storeWriteFault : StoreFaults := { noFaults with tokenWrite := true }

/-- Store state before a refresh: no cached token, quota untouched,
lock free. -/
def freshTokenStore : TokenStore :=
  { token := none, tokenExpiry := none, tokenType := none,
    mintCount := 0, mintReset := some 100000, lockHeld := false }

/-- C3 counterexample: a refresh that acquired the cluster lock and
terminated (successfully, returning the token) but left the lock key
held.  When pipe.execute() raises while storing the token, the code
flips redis_available off; the finally clause is guarded by
redis_available and therefore skips _release_lock, so the lock key
survives the run. -/
theorem refresh_lock_leak_on_store_fault :
    freshTokenStore.lockHeld = false ∧
    (refreshToken ⟨true, false⟩ freshTokenStore 50000 true
        (.success "tok1" 7200 "Bearer") storeWriteFault max_mints_per_day).result =
      .ok "tok1" ∧
    (refreshToken ⟨true, false⟩ freshTokenStore 50000 true
        (.success "tok1" 7200 "Bearer") storeWriteFault max_mints_per_day).store.lockHeld =
      true := by
  refine ⟨rfl, rfl, by decide⟩

@[simp] lemma noFaults_cacheRead : noFaults.cacheRead = false := rfl

@[simp] lemma noFaults_mintResetRead : noFaults.mintResetRead = false := rfl

@[simp] lemma noFaults_mintResetWrite : noFaults.mintResetWrite = false := rfl

@[simp] lemma noFaults_mintCountRead : noFaults.mintCountRead = false := rfl

@[simp] lemma noFaults_acquireSet : noFaults.acquireSet = false := rfl

@[simp] lemma noFaults_mintIncr : noFaults.mintIncr = false := rfl

@[simp] lemma noFaults_tokenWrite : noFaults.tokenWrite = false := rfl

@[simp] lemma noFaults_releaseDelete : noFaults.releaseDelete = false := rfl

lemma checkMintLimit_noFaults (m : MgrState) (st : TokenStore) (now : Rat) (k : Nat) :
    (checkMintLimit m st now noFaults k).2.1 = m ∧
    ((checkMintLimit m st now noFaults k).2.2).lockHeld = st.lockHeld := by
  unfold checkMintLimit
  rcases hm : m.redisAvailable <;> rcases st.mintReset with _ | r <;> simp [hm]
  split <;> simp

/-- C3 (amended): every execution of _refresh_token that acquires the
cluster-wide refresh lock and during which no coordination-store
operation raises after the acquisition releases the lock on every exit
path — success, API error, missing credentials, or malformed response.
(When a store operation does fail, the lock is left to expire via its
60-second TTL; see the counterexample.) -/
theorem refresh_lock_released (m : MgrState) (st : TokenStore) (now : Rat)
    (creds : Bool) (net : NetResult) (maxMints : Nat)
    (hra : m.redisAvailable = true) (hla : m.lockAcquired = false)
    (hlh : st.lockHeld = false) :
    (refreshToken m st now creds net noFaults maxMints).store.lockHeld = false ∧
    (refreshToken m st now creds net noFaults maxMints).mgr.lockAcquired = false := by
  obtain ⟨hm1, hst1⟩ := checkMintLimit_noFaults m st now maxMints
  rw [hlh] at hst1
  cases creds <;> cases net <;>
    simp [refreshToken, refreshBody, acquireLock, releaseLock, incrementMintCount,
      hra, hla, hm1, hst1]

/-- Witness for C3 (amended): a concrete healthy-store refresh whose
network call fails; the lock is still released. -/
theorem refresh_lock_released_witness :
    (refreshToken ⟨true, false⟩ freshTokenStore 50000 true NetResult.requestError
        noFaults max_mints_per_day).store.lockHeld = false ∧
    (refreshToken ⟨true, false⟩ freshTokenStore 50000 true NetResult.requestError
        noFaults max_mints_per_day).mgr.lockAcquired = false :=
  refresh_lock_released ⟨true, false⟩ freshTokenStore 50000 true NetResult.requestError
    max_mints_per_day rfl rfl rfl

/-- C10: whatever fails inside get_access_token — quota gate, lock
contention, network error, misconfiguration, a redis read — the public
caller only ever sees HTTP 503 with detail
given as the string Failed to get access token: every distinct internal
HTTPException is caught and replaced. -/
theorem get_access_token_generic_error (m : MgrState) (st : TokenStore) (now : Rat)
    (creds : Bool) (net : NetResult) (f : StoreFaults) (maxMints : Nat) (e : HTTPError)
    (h : (getAccessToken m st now creds net f maxMints).result = .error e) :
    e = ⟨503, "Failed to get access token"⟩ := by
  unfold getAccessToken at h
  dsimp only at h
  split at h
  · simp_all
  · exact (Except.error.injEq _ _).mp h.symm

/-- Store state in which another process holds the refresh lock. -/
def lockedStore : TokenStore :=
  { token := none, tokenExpiry := none, tokenType := none,
    mintCount := 0, mintReset := some 100000, lockHeld := true }

/-- Witness for C10: a caller hitting lock contention observes exactly
the generic 503, and the theorem applies to it. -/
theorem get_access_token_generic_error_witness :
    (getAccessToken ⟨true, false⟩ lockedStore 50000 true NetResult.requestError
        noFaults 900).result = .error ⟨503, "Failed to get access token"⟩ ∧
    (⟨503, "Failed to get access token"⟩ : HTTPError) =
      ⟨503, "Failed to get access token"⟩ :=
  ⟨rfl,
   get_access_token_generic_error ⟨true, false⟩ lockedStore 50000 true
     NetResult.requestError noFaults 900 ⟨503, "Failed to get access token"⟩ rfl⟩

/-! ## Scraper engine extraction (src/backend/app/scraper_engine.py)

_extract_data reads the price, title and image fields through the
selectors of the site descriptor; a locator that matches nothing raises
(caught as SelectorChangedException), the price text is cleaned and
coerced with float() (failure raises DataMissingException), and a
honeypot pass re-queries the title and image elements, raising
DataMissingException when one is not visible or has a zero-dimension
bounding box.  The page is modelled by the answers the DOM gives to
those queries. -/

/-- What query_selector reports about an element: is_visible() and
bounding_box() (None when the element is not rendered). -/
structure ElementInfo where
  visible : Bool
  box : Option (Rat × Rat)
  deriving Repr, DecidableEq

/-- The DOM answers used by _extract_data.  none in the first three
fields means the locator matches nothing and inner_text/get_attribute
raises; imageSrc holds the value of get_attribute, itself None when
the src attribute is absent.  titleEl and imageEl are the
query_selector results of the honeypot pass. -/
structure PageModel where
  priceText : Option String
  titleText : Option String
  imageSrc : Option (Option String)
  titleEl : Option ElementInfo
  imageEl : Option ElementInfo
  deriving Repr, DecidableEq

/-- The two exception types raised by _extract_data. -/
inductive ExtractError where
  | selectorChanged
  | dataMissing
  deriving Repr, DecidableEq

/-- The dictionary returned by _extract_data on success. -/
structure ExtractResult where
  price : Rat
  title : String
  image_url : Option String
  deriving Repr, DecidableEq

/-- The generator-and-replace price cleanup: keep digits, periods and
commas, then turn commas into periods. -/
def cleanPrice (s : String) : String :=
  String.mk (((s.data.filter fun c => c.isDigit || c = '.' || c = ',').map
    fun c => if c = ',' then '.' else c))

/-- Digit run to a natural number. -/
def digitsToNat (l : List Char) : Nat :=
  l.foldl (fun n c => n * 10 + (c.toNat - 48)) 0

/-- Split a character list at every period. -/
def splitOnDot : List Char → List (List Char)
  | [] => [[]]
  | c :: rest =>
    let r := splitOnDot rest
    if c = '.' then [] :: r
    else
      match r with
      | [] => [[c]]
      | h :: t => (c :: h) :: t

/-- Python float() on a cleaned price string.  The cleaned string only
contains digits and periods, on which float() succeeds exactly when
there is at least one digit and at most one period; the value is the
usual decimal reading. -/
def parseCleanFloat (s : String) : Option Rat :=
  if (s.data.any Char.isDigit) = false then none
  else
    match splitOnDot s.data with
    | [a] => some (digitsToNat a)
    | [a, b] => some ((digitsToNat a : Rat) +
        (digitsToNat b : Rat) / (10 : Rat) ^ b.length)
    | _ => none

/-- Python str.strip(): drop whitespace from both ends. -/
def pyStrip (s : String) : String :=
  String.mk (((s.data.dropWhile Char.isWhitespace).reverse.dropWhile
    Char.isWhitespace).reverse)

/-- The honeypot test applied to one query_selector answer:
`if not visible or (box and (box[width] == 0 or box[height] == 0))`,
skipped entirely when the query returns no element. -/
def honeypotHidden : Option ElementInfo → Bool
  | none => false
  | some e => !e.visible || (match e.box with
      | some wh => decide (wh.1 = 0) || decide (wh.2 = 0)
      | none => false)

/-- _extract_data: selector reads (any miss raises
SelectorChangedException), price normalization (failure raises
DataMissingException), then the honeypot pass over the title and image
elements (a hit raises DataMissingException); on success the normalized
price, the stripped title and the image src are returned. -/
def extractData (pg : PageModel) : Except ExtractError ExtractResult :=
  match pg.priceText, pg.titleText, pg.imageSrc with
  | some priceRaw, some title, some imageUrl =>
    match parseCleanFloat (cleanPrice priceRaw) with
    | none => .error .dataMissing
    | some price =>
      if honeypotHidden pg.titleEl || honeypotHidden pg.imageEl then
        .error .dataMissing
      else
        .ok { price := price, title := pyStrip title, image_url := imageUrl }
  | _, _, _ => .error .selectorChanged

/-! ## Scraper engine retry loop (src/backend/app/scraper_engine.py)

scrape_page runs `while attempt < max_retries`; each attempt performs
the whole browser interaction (abstracted here into a per-attempt
oracle), and on any exception marks the proxy failed, clears the sticky
session and sleeps random.uniform(2 ** attempt, 2 ** (attempt + 1))
before the next attempt — including after the last one.  When the loop
exhausts its attempts, one aggregated ScraperEngineException carrying
the last error is raised. -/

/-- The exceptions an attempt can raise. -/
inductive AttemptError where
  | selectorChangedErr
  | dataMissingErr
  | timeoutErr
  | otherErr
  deriving Repr, DecidableEq

/-- The aggregated terminal error of scrape_page. -/
inductive TerminalError where
  | allAttemptsFailed (lastError : Option AttemptError)
  deriving Repr, DecidableEq

/-- The while loop of scrape_page.  attemptResult is the outcome of the
browser work of each attempt; delayDraw i is the value returned by
random.uniform(2 ** i, 2 ** (i + 1)).  Returns the outcome, the number
of attempts performed, and the backoff delays slept (in order). -/
def scrapeGo (attemptResult : Nat → Except AttemptError α) (delayDraw : Nat → Rat) :
    Nat → Nat → Option AttemptError → List Rat →
    Except TerminalError α × Nat × List Rat
  | attempt, 0, lastExc, delays =>
    (.error (.allAttemptsFailed lastExc), attempt, delays.reverse)
  | attempt, fuel + 1, _, delays =>
    match attemptResult attempt with
    | .ok r => (.ok r, attempt + 1, delays.reverse)
    | .error e =>
      scrapeGo attemptResult delayDraw (attempt + 1) fuel (some e)
        (delayDraw attempt :: delays)

/-- scrape_page(site_config, max_retries): run the retry loop from
attempt 0 with no last error. -/
def scrapePage (attemptResult : Nat → Except AttemptError α) (delayDraw : Nat → Rat)
    (maxRetries : Nat) : Except TerminalError α × Nat × List Rat :=
  scrapeGo attemptResult delayDraw 0 maxRetries none []

/-! ### Theorems for extraction -/

/-- C7: when all three selectors match, failure to normalize the raw
price string (strip to digits, periods and commas, commas to periods,
then float()) raises the data-missing failure; when a selector matches
nothing the selector-changed failure is raised instead; the two failure
types are distinct; and on success the returned price is exactly the
normalized decimal. -/
theorem price_normalization_failures :
    (∀ (pg : PageModel) (praw t : String) (i : Option String),
        pg.priceText = some praw → pg.titleText = some t → pg.imageSrc = some i →
        parseCleanFloat (cleanPrice praw) = none →
        extractData pg = .error .dataMissing) ∧
    (∀ pg : PageModel,
        pg.priceText = none ∨ pg.titleText = none ∨ pg.imageSrc = none →
        extractData pg = .error .selectorChanged) ∧
    (∀ (pg : PageModel) (praw t : String) (i : Option String) (v : Rat),
        pg.priceText = some praw → pg.titleText = some t → pg.imageSrc = some i →
        parseCleanFloat (cleanPrice praw) = some v →
        honeypotHidden pg.titleEl = false → honeypotHidden pg.imageEl = false →
        extractData pg = .ok ⟨v, pyStrip t, i⟩) ∧
    ExtractError.dataMissing ≠ ExtractError.selectorChanged := by
  refine ⟨?_, ?_, ?_, by decide⟩
  · intro pg praw t i hp ht hi hparse
    simp only [extractData, hp, ht, hi]
    rw [hparse]
  · intro pg h
    rcases h with h | h | h
    · rcases ht : pg.titleText <;> rcases hi : pg.imageSrc <;>
        simp only [extractData, h, ht, hi]
    · rcases hp : pg.priceText <;> rcases hi : pg.imageSrc <;>
        simp only [extractData, h, hp, hi]
    · rcases hp : pg.priceText <;> rcases ht : pg.titleText <;>
        simp only [extractData, h, hp, ht]
  · intro pg praw t i v hp ht hi hparse hte hie
    simp only [extractData, hp, ht, hi]
    rw [hparse, hte, hie]
    rfl

/-- Witness for C7: a price of N/A (normalization fails), a page whose
price selector matches nothing, and a clean 9.99 price. -/
theorem price_normalization_failures_witness :
    extractData ⟨some "N/A", some "Widget", some (some "i.png"),
        some ⟨true, some (10, 10)⟩, some ⟨true, some (10, 10)⟩⟩ =
      .error .dataMissing ∧
    extractData ⟨none, some "Widget", some (some "i.png"), none, none⟩ =
      .error .selectorChanged ∧
    extractData ⟨some "£999", some " Widget ", some (some "i.png"),
        some ⟨true, some (10, 10)⟩, some ⟨true, some (10, 10)⟩⟩ =
      .ok ⟨((999 : Nat) : Rat), pyStrip " Widget ", some "i.png"⟩ :=
  ⟨price_normalization_failures.1
     ⟨some "N/A", some "Widget", some (some "i.png"),
       some ⟨true, some (10, 10)⟩, some ⟨true, some (10, 10)⟩⟩
     "N/A" "Widget" (some "i.png") rfl rfl rfl (by decide),
   price_normalization_failures.2.1
     ⟨none, some "Widget", some (some "i.png"), none, none⟩ (Or.inl rfl),
   price_normalization_failures.2.2.1
     ⟨some "£999", some " Widget ", some (some "i.png"),
       some ⟨true, some (10, 10)⟩, some ⟨true, some (10, 10)⟩⟩
     "£999" " Widget " (some "i.png") ((999 : Nat) : Rat)
     rfl rfl rfl rfl (by decide) (by decide)⟩

/-- A page whose title element was extracted but has a zero-width
bounding box, while the image selector matches nothing. -/
def honeypotPage : PageModel :=
  { priceText := some "9.99", titleText := some "Deal", imageSrc := none,
    titleEl := some ⟨true, some (0, 30)⟩, imageEl := none }

/-- C6 counterexample: on honeypotPage the title element extracted by
the selector has zero bounding-box area, yet extraction raises the
selector-changed failure (the image selector matches nothing, and the
selector reads precede the honeypot pass), not the data-missing
failure claimed. -/
theorem hidden_title_wrong_failure_type :
    honeypotPage.titleText = some "Deal" ∧
    honeypotPage.titleEl = some ⟨true, some (0, 30)⟩ ∧
    honeypotHidden honeypotPage.titleEl = true ∧
    extractData honeypotPage = .error .selectorChanged ∧
    ExtractError.selectorChanged ≠ ExtractError.dataMissing := by
  refine ⟨rfl, rfl, by decide, rfl, by decide⟩

lemma extractData_ok_shape (pg : PageModel) (r : ExtractResult)
    (h : extractData pg = .ok r) :
    honeypotHidden pg.titleEl = false ∧ honeypotHidden pg.imageEl = false := by
  rcases hp : pg.priceText with _ | praw <;>
    rcases ht : pg.titleText with _ | t <;>
    rcases hi : pg.imageSrc with _ | i <;>
    simp only [extractData, hp, ht, hi] at h
  all_goals try exact Except.noConfusion h
  rcases hq : parseCleanFloat (cleanPrice praw) with _ | v <;> rw [hq] at h
  · exact Except.noConfusion h
  · dsimp only at h
    by_cases hc : (honeypotHidden pg.titleEl || honeypotHidden pg.imageEl) = true
    · rw [if_pos hc] at h
      exact Except.noConfusion h
    · simp only [Bool.or_eq_true, not_or, Bool.not_eq_true] at hc
      exact hc

/-- C6 (amended): on every page where all three selectors match and the
title element is marked not-visible or has a zero-dimension bounding
box, extraction raises the data-missing failure; and on no page with a
hidden title element does extraction return a success outcome carrying
its text. -/
theorem hidden_title_raises_data_missing :
    (∀ (pg : PageModel) (praw t : String) (i : Option String) (e : ElementInfo),
        pg.priceText = some praw → pg.titleText = some t → pg.imageSrc = some i →
        pg.titleEl = some e → honeypotHidden (some e) = true →
        extractData pg = .error .dataMissing) ∧
    (∀ (pg : PageModel) (e : ElementInfo) (r : ExtractResult),
        pg.titleEl = some e → honeypotHidden (some e) = true →
        extractData pg ≠ .ok r) := by
  constructor
  · intro pg praw t i e hp ht hi hte hhid
    simp only [extractData, hp, ht, hi]
    cases hparse : parseCleanFloat (cleanPrice praw) with
    | none => rfl
    | some v =>
      rw [hte, hhid]
      rfl
  · intro pg e r hte hhid hok
    have h1 := (extractData_ok_shape pg r hok).1
    rw [hte] at h1
    rw [h1] at hhid
    simp at hhid

/-- Witness for C6 (amended): a not-visible title element on a page
where every selector matches. -/
theorem hidden_title_raises_data_missing_witness :
    extractData ⟨some "9.99", some "Deal", some none, some ⟨false, none⟩, none⟩ =
      .error .dataMissing ∧
    extractData ⟨some "9.99", some "Deal", some none, some ⟨false, none⟩, none⟩ ≠
      .ok ⟨999 / 100, "Deal", none⟩ :=
  ⟨hidden_title_raises_data_missing.1
     ⟨some "9.99", some "Deal", some none, some ⟨false, none⟩, none⟩
     "9.99" "Deal" none ⟨false, none⟩ rfl rfl rfl rfl (by decide),
   hidden_title_raises_data_missing.2
     ⟨some "9.99", some "Deal", some none, some ⟨false, none⟩, none⟩
     ⟨false, none⟩ ⟨999 / 100, "Deal", none⟩ rfl (by decide)⟩

/-! ### Theorems for the retry loop -/

/-- An attempt oracle for a permanently mismatched selector. -/
def alwaysSelectorMismatch : Nat → Except AttemptError Unit :=
  fun _ => .error .selectorChangedErr

/-- Delay draws sitting on the shared endpoint of the uniform ranges:
uniform(1, 2) returning 2 and uniform(2, 4) returning 2. -/
def boundaryDraws : Nat → Rat :=
  fun i => if i = 0 then 2 else if i = 1 then 2 else 2 ^ i

/-- C5 counterexample: with max_retries = 3 and a permanently
mismatched selector, exactly 3 attempts occur and one aggregated
terminal error is raised — but the backoff delays drawn from
random.uniform(2 ** i, 2 ** (i + 1)) need not be strictly increasing:
the draws 2 and 2 lie inside the documented closed ranges [1, 2] and
[2, 4], and then the delay between the first and second attempts equals
the delay between the second and third. -/
theorem backoff_not_strictly_increasing :
    ((2 : Rat) ^ 0 ≤ boundaryDraws 0 ∧ boundaryDraws 0 ≤ 2 ^ 1) ∧
    ((2 : Rat) ^ 1 ≤ boundaryDraws 1 ∧ boundaryDraws 1 ≤ 2 ^ 2) ∧
    scrapePage alwaysSelectorMismatch boundaryDraws 3 =
      (.error (.allAttemptsFailed (some .selectorChangedErr)), 3,
        [boundaryDraws 0, boundaryDraws 1, boundaryDraws 2]) ∧
    ¬ boundaryDraws 0 < boundaryDraws 1 := by
  refine ⟨by decide, by decide, rfl, by decide⟩

/-- C5 (amended): with max_retries = 3 and every attempt failing,
exactly 3 attempts occur, a single aggregated terminal error carrying
the last attempt error is raised, and the three backoff delays (one
after each failed attempt, the last one slept just before the terminal
raise) are drawn from the exponentially growing base-2 ranges
[2 ** i, 2 ** (i + 1)] — hence consecutive delays are non-decreasing,
though they may be equal at a shared range endpoint, and no cap is
applied. -/
theorem scrape_retry_backoff (ar : Nat → AttemptError) (dd : Nat → Rat)
    (hdd : ∀ i, 2 ^ i ≤ dd i ∧ dd i ≤ 2 ^ (i + 1)) :
    scrapePage (fun i => (.error (ar i) : Except AttemptError Unit)) dd 3 =
      (.error (.allAttemptsFailed (some (ar 2))), 3, [dd 0, dd 1, dd 2]) ∧
    dd 0 ≤ dd 1 ∧ dd 1 ≤ dd 2 := by
  refine ⟨rfl, le_trans (hdd 0).2 (hdd 1).1, le_trans (hdd 1).2 (hdd 2).1⟩

/-- Witness for C5 (amended): the draws landing on the lower endpoint
of each range. -/
theorem scrape_retry_backoff_witness :
    scrapePage (fun _ => (.error AttemptError.selectorChangedErr : Except AttemptError Unit))
      (fun i => 2 ^ i) 3 =
      (.error (.allAttemptsFailed (some .selectorChangedErr)), 3,
        [(2 : Rat) ^ 0, 2 ^ 1, 2 ^ 2]) ∧
    (2 : Rat) ^ 0 ≤ 2 ^ 1 ∧ (2 : Rat) ^ 1 ≤ 2 ^ 2 :=
  scrape_retry_backoff (fun _ => AttemptError.selectorChangedErr) (fun i => 2 ^ i)
    (fun i => ⟨le_refl _, pow_le_pow_right₀ one_le_two (Nat.le_succ i)⟩)

end PriceCompare
